import Mathlib

/-!
Verification development for the zcompiler sources (`src/parser.rs`,
`src/ast.rs`, `src/codegen.rs`).  The data model and the semantic actions
of the parser, together with the assembly emitter, are shallowly embedded
below; the theorems at the end settle the frozen specification claims.

Everything lives in the `ZC` namespace.  Rust panics are modelled as `none` / `Option`-failure; the mutable
out-parameters of `type_compatible` become a returned pair of booleans.
-/

namespace ZC

/-- Modelled from the spec: `lexer.rs` is not among the sources.  The token
kind set is taken from the `TokenType::` variants referenced by
`parser.rs` and `codegen.rs`. -/
inductive TokenType where
  | identifier | integer | eof
  | leftParen | rightParen | leftBrace | rightBrace
  | semiColon | colon | assign
  | letKw | ifKw | elseKw | whileKw | forKw | fnKw | returnKw
  | add | sub | mul | div | ampersand | widen
  | equal | notEqual | lessThan | lessThanOrEqual | greaterThan | greaterThanOrEqual
  | intKw | u8Kw | u32Kw
  deriving DecidableEq, Repr

/-- Modelled from the spec: `lexer.rs` is not among the sources.  Literal
payload variants as used in `parser.rs` and `codegen.rs`; the `u64`/`u8`/
`u32` payloads are modelled as `Nat`. -/
inductive Literal where
  | integer (v : Nat)
  | u8 (v : Nat)
  | u32 (v : Nat)
  | identifier (s : String)
  deriving DecidableEq, Repr

/-- Modelled from the spec: `lexer.rs` is not among the sources.  Field
layout as used throughout `parser.rs`: kind, optional lexeme, position,
optional literal value. -/
structure Token where
  tokenType : TokenType
  lexeme : Option String
  line : Nat
  column : Nat
  value : Option Literal
  deriving DecidableEq, Repr

/-- Modelled from the spec: `types.rs` is not among the sources.  The
variant set is fixed by the `Type::` constructors used in `parser.rs`
(`Int`, `U8`, `U32`) and the pointer variants matched in `codegen.rs`
(`PInt`, `PU8`, `PU32`). -/
inductive Ty where
  | int | u8 | u32 | pInt | pU8 | pU32
  deriving DecidableEq, Repr

/-- Modelled from the spec: `size()` in bytes — integers 8/32/64 bits map
to 1/4/8 bytes, pointers to 8 (spec section 3; consistent with the
width-dependent instruction selection in `codegen.rs`). -/
def Ty.size : Ty → Nat
  | .u8 => 1
  | .u32 => 4
  | .int => 8
  | .pInt => 8
  | .pU8 => 8
  | .pU32 => 8

/-- Modelled from the spec: `is_integer()` query on `Type`. -/
def Ty.is_integer : Ty → Bool
  | .int => true
  | .u8 => true
  | .u32 => true
  | _ => false

/-- Modelled from the spec: `is_pointer()` query on `Type`. -/
def Ty.is_pointer : Ty → Bool
  | .pInt => true
  | .pU8 => true
  | .pU32 => true
  | _ => false

/-- Modelled from the spec: `pointer_to()` wraps one indirection level.
The flat variant set visible in the sources has no double-pointer
representative, so wrapping a pointer is a failure. -/
def Ty.pointer_to : Ty → Option Ty
  | .int => some .pInt
  | .u8 => some .pU8
  | .u32 => some .pU32
  | _ => none

/-- Modelled from the spec: `value_at()` unwraps one indirection level;
invalid on non-pointers. -/
def Ty.value_at : Ty → Option Ty
  | .pInt => some .int
  | .pU8 => some .u8
  | .pU32 => some .u32
  | _ => none

/-- `SymbolType` from parser.rs (lines 9-13). -/
inductive SymbolType where
  | function | variable
  deriving DecidableEq, Repr

/-- `Symbol` from parser.rs (lines 15-21); the Rust field `structure` is
named `structKind` here because `structure` is a Lean keyword. -/
structure Symbol where
  identifier : Token
  structKind : SymbolType
  ty : Option Ty
  end_label : Option String
  deriving DecidableEq, Repr

/-- `Node` from ast.rs (lines 7-58). -/
inductive Node where
  | binaryExpr (left : Node) (operator : Token) (right : Node) (ty : Ty)
  | unaryExpr (operator : Token) (right : Node) (ty : Ty)
  | literalExpr (value : Literal) (ty : Ty)
  | globalVar (identifier : Token) (ty : Ty)
  | assignStmt (identifier : Token) (expr : Node)
  | compoundStmt (statements : List Node)
  | ifStmt (condition : Node) (then_branch : Node) (else_branch : Option Node)
  | whileStmt (condition : Node) (body : Node)
  | fnDecl (identifier : Token) (body : Node) (return_type : Option Ty)
  | fnCall (identifier : Token) (expr : Node) (ty : Ty)
  | returnStmt (expr : Node) (fn_name : Symbol)
  deriving Repr

/-- `Node::ty` from ast.rs (lines 60-76). -/
def Node.ty : Node → Option Ty
  | .binaryExpr _ _ _ ty => some ty
  | .unaryExpr _ _ ty => some ty
  | .literalExpr _ ty => some ty
  | .globalVar _ ty => some ty
  | .assignStmt _ _ => none
  | .compoundStmt _ => none
  | .ifStmt _ _ _ => none
  | .whileStmt _ _ => none
  | .fnDecl _ _ _ => none
  | .fnCall _ _ ty => some ty
  | .returnStmt _ _ => none

/-- `Parser::type_compatible` from parser.rs (lines 802-838).  The two
`&mut bool` out-parameters become the returned pair
`(widen_left, widen_right)`; returning `false` (the caller panics) is
modelled as `none`. -/
def type_compatible (left right : Ty) (right_only : Bool) :
    Option (Bool × Bool) :=
  if left = right then
    some (false, false)
  else
    let left_size := left.size
    let right_size := right.size
    if left_size < right_size then
      some (true, false)
    else if left_size > right_size then
      if right_only then none
      else some (false, true)
    else
      some (false, false)

/-- The `Widen` operator token built inline at parser.rs lines 213-219,
335-341, 349-355, 397-403, 411-417 and 907-913. -/
def mkWiden (line column : Nat) : Token :=
  { tokenType := .widen, lexeme := none, line := line, column := column,
    value := none }

/-- One iteration of the loop body of `Parser::term` (parser.rs lines
314-367): `node` and `right` are the already-parsed operand nodes,
`operator` the matched `+`/`-` token.  A panic on incompatible types (or
on a missing operand type, via `.unwrap()`) is `none`. -/
def term_combine (node : Node) (operator : Token) (right : Node) :
    Option Node := do
  let node_ty ← node.ty
  let right_ty ← right.ty
  let (widen_left, widen_right) ←
    type_compatible node_ty right_ty (operator.tokenType = .sub)
  let node' :=
    if widen_left then
      Node.unaryExpr (mkWiden operator.line operator.column) node node_ty
    else node
  let right' :=
    if widen_right then
      Node.unaryExpr (mkWiden operator.line operator.column) right right_ty
    else right
  let ty' ← node'.ty
  some (Node.binaryExpr node' operator right' ty')

/-- The integer-literal case of `Parser::primary` (parser.rs lines
509-525): a value of at most `u8::MAX` becomes a `U8` literal of type
`U8`, anything larger stays an `Integer` literal of type `Int`. -/
def primary_integer (val : Nat) : Node :=
  if val ≤ 255 then
    Node.literalExpr (Literal.u8 val) Ty.u8
  else
    Node.literalExpr (Literal.integer val) Ty.int

/-- The type-checking and node-building tail of `Parser::assignment`
(parser.rs lines 189-230), after the destination symbol has been resolved
as a `Variable` and the right-hand expression has been parsed:
`symbol_ty` is `symbol.ty.unwrap()`, `pline`/`pcolumn` the position of
`previous(1)`.  `type_compatible` is called with the expression's type on
the left, the destination's type on the right, and `right_only = true`;
failure (the panic) is `none`. -/
def assignment_build (identifier : Token) (symbol_ty : Ty) (expr : Node)
    (pline pcolumn : Nat) : Option Node := do
  let expr_ty ← expr.ty
  let (widen_left, _widen_right) ← type_compatible expr_ty symbol_ty true
  if widen_left then
    some (Node.assignStmt identifier
      (Node.unaryExpr (mkWiden pline pcolumn) expr expr_ty))
  else
    some (Node.assignStmt identifier expr)

/-- The comparison-operator set accepted for `if`/`while` conditions
(parser.rs lines 237-242 and 663-668). -/
def is_comparison_op (t : TokenType) : Bool :=
  t = .equal ∨ t = .notEqual ∨ t = .lessThan ∨ t = .lessThanOrEqual ∨
    t = .greaterThan ∨ t = .greaterThanOrEqual

/-- The condition-shape check shared by `Parser::if_statement` (parser.rs
lines 235-251) and `Parser::while_statement` (lines 661-677): the parsed
condition must be a `BinaryExpr` whose operator is a comparison operator,
anything else panics. -/
def condition_check (expr : Node) : Bool :=
  match expr with
  | .binaryExpr _ operator _ _ => is_comparison_op operator.tokenType
  | _ => false

/-- Node construction of `Parser::if_statement` (parser.rs lines 232-265)
given the parsed condition, then-branch and optional else-branch; the
panic on a non-comparison condition is `none`. -/
def if_statement_build (expr then_branch : Node) (else_branch : Option Node) :
    Option Node :=
  if condition_check expr then
    some (Node.ifStmt expr then_branch else_branch)
  else none

/-- Node construction of `Parser::while_statement` (parser.rs lines
658-685) given the parsed condition and body. -/
def while_statement_build (expr body : Node) : Option Node :=
  if condition_check expr then
    some (Node.whileStmt expr body)
  else none

/-- The condition substituted by `Parser::for_statement` when the `for`
condition is omitted (parser.rs lines 701-705): the literal `1` of type
`U8`. -/
def for_default_condition : Node :=
  Node.literalExpr (Literal.integer 1) Ty.u8

/-- The desugaring tail of `Parser::for_statement` (parser.rs lines
718-737): given the parsed initializer, condition, increment and body,
build `{ init; while (cond) { body; incr } }`.  No shape check is applied
to `condition` here. -/
def for_statement_build (init : Option Node) (condition : Node)
    (increment : Option Node) (body : Node) : Node :=
  let body' :=
    match increment with
    | some inc => Node.compoundStmt [body, inc]
    | none => body
  let body'' := Node.whileStmt condition body'
  match init with
  | some i => Node.compoundStmt [i, body'']
  | none => body''

/-- The statement productions reachable from `Parser::single_statement`. -/
inductive StmtBranch where
  | varDecl | assignment | ifStmt | whileStmt | forStmt | fnDecl | returnStmt
  deriving DecidableEq, Repr

/-- The dispatch of `Parser::single_statement` (parser.rs lines 94-117) on
the statement's first token: each `match_token` test inspects the head
token's kind; an unmatched head token panics (`none`). -/
def single_statement_branch (t : TokenType) : Option StmtBranch :=
  if t = .letKw then some .varDecl
  else if t = .identifier then some .assignment
  else if t = .ifKw then some .ifStmt
  else if t = .whileKw then some .whileStmt
  else if t = .forKw then some .forStmt
  else if t = .fnKw then some .fnDecl
  else if t = .returnKw then some .returnStmt
  else none

/-- `Parser::find_symbol` (parser.rs lines 648-656): linear search of the
symbol list comparing lexemes, first match wins. -/
def find_symbol (symbols : List Symbol) (identifier : Token) : Option Symbol :=
  symbols.find? (fun s => s.identifier.lexeme = identifier.lexeme)

/-- `Parser::add_symbol` (parser.rs lines 619-646): panics (`none`) if the
identifier is already declared, otherwise appends the new symbol and
returns it together with the grown table. -/
def add_symbol (symbols : List Symbol) (identifier : Token)
    (structKind : SymbolType) (ty : Ty) (end_label : Option String) :
    Option (Symbol × List Symbol) :=
  if (find_symbol symbols identifier).isSome then none
  else
    let symbol : Symbol :=
      { identifier := identifier, structKind := structKind, ty := some ty,
        end_label := end_label }
    some (symbol, symbols ++ [symbol])

/-- The symbol-registration step of `Parser::fn_decl` (parser.rs lines
742-749): every function is registered with type `Type::Int` and end
label `<name>_end`, before the declared return type is even parsed. -/
def fn_decl_register (symbols : List Symbol) (identifier : Token) :
    Option (Symbol × List Symbol) :=
  add_symbol symbols identifier .function .int
    (some ((identifier.lexeme.getD "") ++ "_end"))

/-- The last-statement-is-return check of `Parser::fn_decl` (parser.rs
lines 760-791), applied when a return type was declared: the body must be
a non-empty compound statement ending in a `ReturnStmt`. -/
def fn_decl_body_check (ty : Option Ty) (body : Node) : Bool :=
  match ty with
  | none => true
  | some _ =>
    match body with
    | .compoundStmt statements =>
      match statements.getLast? with
      | some (.returnStmt _ _) => true
      | _ => false
    | _ => false

/-- `Parser::return_statement` (parser.rs lines 872-923): panics (`none`)
when `current_fn` is absent or when the current function's symbol carries
no type; otherwise coerces the parsed expression's type into the symbol's
type with `right_only = true`, widening the expression if needed. -/
def return_statement_build (current_fn : Option Symbol) (expr : Node)
    (pline pcolumn : Nat) : Option Node := do
  let fn_sym ← current_fn
  let fn_ty ← fn_sym.ty
  let expr_ty ← expr.ty
  let (widen_left, _widen_right) ← type_compatible expr_ty fn_ty true
  let expr' :=
    if widen_left then
      Node.unaryExpr (mkWiden pline pcolumn) expr expr_ty
    else expr
  some (Node.returnStmt expr' fn_sym)

/-! ## Code generator (codegen.rs)

The generator state bundles the text buffer (kept as the ordered list of
the emitted string chunks), the four-slot register pool (`true` = in
use) and the label counter.  All panics — register exhaustion, unwraps,
unexpected node or type shapes — are `none`. -/

/-- The mutable state of `CodeGen` (codegen.rs lines 8-13). -/
structure CGState where
  asm : List String
  registers : List Bool
  label_count : Nat
  deriving DecidableEq, Repr

/-- The initial generator state (codegen.rs lines 20-27). -/
def cgInit : CGState :=
  { asm := [], registers := [false, false, false, false], label_count := 0 }

/-- `REGISTER_NAMES` (codegen.rs line 15). -/
def REGISTER_NAMES : List String := ["%r8", "%r9", "%r10", "%r11"]

/-- `BYTE_REGISTER_NAMES` (codegen.rs line 16). -/
def BYTE_REGISTER_NAMES : List String := ["%r8b", "%r9b", "%r10b", "%r11b"]

/-- `DWORD_REGISTER_NAMES` (codegen.rs line 17). -/
def DWORD_REGISTER_NAMES : List String := ["%r8d", "%r9d", "%r10d", "%r11d"]

/-- `REGISTER_NAMES[r]`; every register index produced by the generator
is below 4, so the default is never consulted. -/
def regName (r : Nat) : String := REGISTER_NAMES.getD r ""

/-- `BYTE_REGISTER_NAMES[r]`. -/
def bregName (r : Nat) : String := BYTE_REGISTER_NAMES.getD r ""

/-- `DWORD_REGISTER_NAMES[r]`. -/
def dregName (r : Nat) : String := DWORD_REGISTER_NAMES.getD r ""

/-- Append one emitted chunk to the assembly buffer
(`self.assembly.push_str(...)`). -/
def emit (s : String) (st : CGState) : CGState :=
  { st with asm := st.asm ++ [s] }

/-- The `as i64` cast applied to a `u64` literal payload (codegen.rs line
42): values at or above `2^63` wrap to negative. -/
def toI64 (n : Nat) : Int :=
  if n < 2 ^ 63 then (n : Int) else (n : Int) - 2 ^ 64

/-- `CodeGen::allocate_register` (codegen.rs lines 288-297): first free
slot, `none` (panic) when all four are taken. -/
def allocate_register (st : CGState) : Option (Nat × CGState) :=
  match st.registers.findIdx? (fun available => !available) with
  | some i => some (i, { st with registers := st.registers.set i true })
  | none => none

/-- `CodeGen::free_register` (codegen.rs lines 299-301). -/
def free_register (register : Nat) (st : CGState) : CGState :=
  { st with registers := st.registers.set register false }

/-- `CodeGen::free_all_registers` (codegen.rs lines 303-307). -/
def free_all_registers (st : CGState) : CGState :=
  { st with registers := st.registers.map (fun _ => false) }

/-- `CodeGen::load` (codegen.rs lines 177-182). -/
def load (value : Int) (st : CGState) : Option (Nat × CGState) := do
  let (r, st) ← allocate_register st
  some (r, emit ("\tmovq\t$" ++ toString value ++ ", " ++ regName r ++ "\n") st)

/-- `CodeGen::load_global` (codegen.rs lines 184-209).  The `U32` arm of
the second `else if` (line 199) is unreachable because `U32` is already
covered by the first condition; it is kept for fidelity. -/
def load_global (identifier : String) (ty : Ty) (st : CGState) :
    Option (Nat × CGState) := do
  let (r, st) ← allocate_register st
  if ty = Ty.int ∨ ty = Ty.pInt ∨ ty = Ty.pU8 ∨ ty = Ty.pU32 ∨ ty = Ty.u32 then
    some (r, emit ("\tmovq\t" ++ identifier ++ ", " ++ regName r ++ "\n") st)
  else if ty = Ty.u8 then
    some (r, emit ("\tmovzbq\t" ++ identifier ++ ", " ++ regName r ++ "\n") st)
  else if ty = Ty.u32 then
    some (r, emit ("\tmovzbl\t" ++ identifier ++ ", " ++ regName r ++ "\n") st)
  else
    none

/-- `CodeGen::store` (codegen.rs lines 211-230). -/
def store (register : Nat) (identifier : String) (ty : Ty) (st : CGState) :
    Option CGState :=
  if ty = Ty.int ∨ ty = Ty.pInt ∨ ty = Ty.pU8 ∨ ty = Ty.pU32 then
    some (emit ("\tmovq\t" ++ regName register ++ ", " ++ identifier ++ "\n") st)
  else if ty = Ty.u8 then
    some (emit ("\tmovb\t" ++ bregName register ++ ", " ++ identifier ++ "\n") st)
  else if ty = Ty.u32 then
    some (emit ("\tmovl\t" ++ dregName register ++ ", " ++ identifier ++ "\n") st)
  else
    none

/-- `CodeGen::widen` (codegen.rs lines 232-234): emits nothing and
returns the register unchanged. -/
def widen_gen (register : Nat) (_old_ty _new_ty : Ty) (st : CGState) :
    (Nat × CGState) :=
  (register, st)

/-- `CodeGen::define_global` (codegen.rs lines 236-240). -/
def define_global (identifier : String) (ty : Ty) (st : CGState) : CGState :=
  emit ("\t.comm\t" ++ identifier ++ ", " ++ toString ty.size ++ ", " ++
    toString ty.size ++ "\n") st

/-- `CodeGen::add` (codegen.rs lines 242-249). -/
def add_gen (left right : Nat) (st : CGState) : (Nat × CGState) :=
  let st := emit ("\taddq\t" ++ regName left ++ ", " ++ regName right ++ "\n") st
  (right, free_register left st)

/-- `CodeGen::subtract` (codegen.rs lines 251-258). -/
def subtract_gen (left right : Nat) (st : CGState) : (Nat × CGState) :=
  let st := emit ("\tsubq\t" ++ regName right ++ ", " ++ regName left ++ "\n") st
  (left, free_register right st)

/-- `CodeGen::multiply` (codegen.rs lines 260-267). -/
def multiply_gen (left right : Nat) (st : CGState) : (Nat × CGState) :=
  let st := emit ("\timulq\t" ++ regName left ++ ", " ++ regName right ++ "\n") st
  (right, free_register left st)

/-- `CodeGen::divide` (codegen.rs lines 269-279). -/
def divide_gen (left right : Nat) (st : CGState) : (Nat × CGState) :=
  let st := emit ("\tmovq\t" ++ regName left ++ ", %rax\n") st
  let st := emit "\tcqo\n" st
  let st := emit ("\tidivq\t" ++ regName right ++ "\n") st
  let st := emit ("\tmovq\t%rax, " ++ regName left ++ "\n") st
  (left, free_register right st)

/-- The inverted-condition jump mnemonic of `CodeGen::compare_and_jump`
(codegen.rs lines 311-319). -/
def inverted_jump (operation : TokenType) : Option String :=
  match operation with
  | .equal => some "jne"
  | .notEqual => some "je"
  | .lessThan => some "jge"
  | .lessThanOrEqual => some "jg"
  | .greaterThan => some "jle"
  | .greaterThanOrEqual => some "jl"
  | _ => none

/-- `CodeGen::compare_and_jump` (codegen.rs lines 309-328): emits the
comparison and the inverted branch, then frees the whole pool. -/
def compare_and_jump (operation : TokenType) (left right label : Nat)
    (st : CGState) : Option CGState := do
  let jump_instruction ← inverted_jump operation
  let st := emit ("\tcmpq\t" ++ regName right ++ ", " ++ regName left ++ "\n") st
  let st := emit ("\t" ++ jump_instruction ++ " L" ++ toString label ++ "\n") st
  some (free_all_registers st)

/-- The flag-capturing set mnemonic of `CodeGen::compare_and_set`
(codegen.rs lines 332-340). -/
def set_instruction_of (operation : TokenType) : Option String :=
  match operation with
  | .equal => some "sete"
  | .notEqual => some "setne"
  | .lessThan => some "setl"
  | .lessThanOrEqual => some "setle"
  | .greaterThan => some "setg"
  | .greaterThanOrEqual => some "setge"
  | _ => none

/-- `CodeGen::compare_and_set` (codegen.rs lines 330-356). -/
def compare_and_set (operation : TokenType) (left right : Nat)
    (st : CGState) : Option (Nat × CGState) := do
  let set_instruction ← set_instruction_of operation
  let st := emit ("\tcmpq\t" ++ regName right ++ ", " ++ regName left ++ "\n") st
  let st := emit ("\t" ++ set_instruction ++ " " ++ bregName right ++ "\n") st
  let st := emit ("\tmovzbq\t" ++ bregName right ++ ", " ++ regName right ++
    "\n") st
  some (right, free_register left st)

/-- `CodeGen::label` (codegen.rs lines 358-361): post-increment, so the
first label is `1`. -/
def new_label (st : CGState) : (Nat × CGState) :=
  (st.label_count + 1, { st with label_count := st.label_count + 1 })

/-- `CodeGen::generate_label` (codegen.rs lines 363-365). -/
def generate_label (label : Nat) (st : CGState) : CGState :=
  emit ("L" ++ toString label ++ ":\n") st

/-- `CodeGen::jump` (codegen.rs lines 367-369). -/
def jump (label : Nat) (st : CGState) : CGState :=
  emit ("\tjmp\tL" ++ toString label ++ "\n") st

/-- `CodeGen::function_preamble` (codegen.rs lines 464-471). -/
def function_preamble (name : String) (st : CGState) : CGState :=
  let st := emit "\t.global main\n" st
  let st := emit ("\t.type\t" ++ name ++ ", @function\n") st
  let st := emit (name ++ ":\n") st
  let st := emit "\tpushq\t%rbp\n" st
  emit "\tmovq\t%rsp, %rbp\n" st

/-- `CodeGen::function_postamble` (codegen.rs lines 473-481). -/
def function_postamble (fn_name : String) (st : CGState) : CGState :=
  let st := emit (fn_name ++ "_end:\n") st
  let st := emit "\tpopq\t%rbp\n" st
  emit "\tret\n" st

/-- `CodeGen::address_of` (codegen.rs lines 509-516). -/
def address_of (ident : String) (st : CGState) : Option (Nat × CGState) := do
  let (r, st) ← allocate_register st
  some (r, emit ("\tleaq\t" ++ ident ++ "(%rip), " ++ regName r ++ "\n") st)

/-- `CodeGen::dereference` (codegen.rs lines 518-532). -/
def dereference (register : Nat) (ty : Ty) (st : CGState) :
    Option (Nat × CGState) :=
  match ty with
  | .pInt | .pU32 =>
    some (register, emit ("\tmovq\t(" ++ regName register ++ "), " ++
      regName register ++ "\n") st)
  | .pU8 =>
    some (register, emit ("\tmovzbq\t(" ++ regName register ++ "), " ++
      regName register ++ "\n") st)
  | _ => none

mutual

/-- `CodeGen::generate_node` (codegen.rs lines 39-149).  The recursive
emission methods `if_stmt` (lines 371-417), `while_stmt` (419-454),
`function` (456-462), `function_call` (483-499) and `return_stmt`
(501-507) are inlined into their dispatch arms; every panic is `none`. -/
def generate_node (node : Node) (st : CGState) : Option (Nat × CGState) :=
  match node with
  | .literalExpr value ty =>
    match value with
    | .integer i => load (toI64 i) st
    | .u8 u => load (u : Int) st
    | .u32 u => load (u : Int) st
    | .identifier i => load_global i ty st
  | .binaryExpr left operator right _ty => do
    let (left_r, st) ← generate_node left st
    let (right_r, st) ← generate_node right st
    match operator.tokenType with
    | .add => some (add_gen left_r right_r st)
    | .sub => some (subtract_gen left_r right_r st)
    | .mul => some (multiply_gen left_r right_r st)
    | .div => some (divide_gen left_r right_r st)
    | .equal | .notEqual | .lessThan | .lessThanOrEqual | .greaterThan
    | .greaterThanOrEqual => compare_and_set operator.tokenType left_r right_r st
    | _ => none
  | .unaryExpr operator right ty =>
    match operator.tokenType with
    | .sub => do
      let (right_node, st) ← generate_node right st
      let (_, st) ← load 0 st
      some (subtract_gen 0 right_node st)
    | .widen => do
      let (right_node, st) ← generate_node right st
      let old_ty ← right.ty
      some (widen_gen right_node old_ty ty st)
    | .ampersand =>
      match right with
      | .literalExpr (Literal.identifier i) _ => address_of i st
      | _ => none
    | .mul => do
      let (right_node, st) ← generate_node right st
      let rty ← right.ty
      dereference right_node rty st
    | _ => none
  | .globalVar identifier ty => do
    let name ← identifier.lexeme
    some (0, define_global name ty st)
  | .assignStmt identifier expr => do
    let (register, st) ← generate_node expr st
    let name ← identifier.lexeme
    let expr_ty ← expr.ty
    let st ← store register name expr_ty st
    some (0, free_register register st)
  | .ifStmt condition then_branch else_branch =>
    -- CodeGen::if_stmt, codegen.rs lines 371-417
    let (false_label, st) := new_label st
    let (end_label, st) := new_label st
    match condition with
    | .binaryExpr left operator right _ => do
      let (left_reg, st) ← generate_node left st
      let (right_reg, st) ← generate_node right st
      let st ← compare_and_jump operator.tokenType left_reg right_reg
        false_label st
      let st := free_all_registers st
      let (_, st) ← generate_node then_branch st
      let st := free_all_registers st
      let st := jump end_label st
      let st := generate_label false_label st
      let st ←
        match else_branch with
        | some eb => do
          let (_, st) ← generate_node eb st
          some (free_all_registers st)
        | none => some st
      some (0, generate_label end_label st)
    | _ => none
  | .compoundStmt statements => do
    let st ← generate_list statements st
    some (0, st)
  | .whileStmt condition body =>
    -- CodeGen::while_stmt, codegen.rs lines 419-454
    let (start_label, st) := new_label st
    let (end_label, st) := new_label st
    let st := generate_label start_label st
    match condition with
    | .binaryExpr left operator right _ => do
      let (left_reg, st) ← generate_node left st
      let (right_reg, st) ← generate_node right st
      let st ← compare_and_jump operator.tokenType left_reg right_reg
        end_label st
      let st := free_all_registers st
      let (_, st) ← generate_node body st
      let st := free_all_registers st
      let st := jump start_label st
      some (0, generate_label end_label st)
    | _ => none
  | .fnDecl identifier body _return_type => do
    -- CodeGen::function, codegen.rs lines 456-462
    let fn_name ← identifier.lexeme
    let st := function_preamble fn_name st
    let (_, st) ← generate_node body st
    some (0, function_postamble fn_name st)
  | .fnCall identifier expr _ty => do
    -- CodeGen::function_call, codegen.rs lines 483-499, followed by the
    -- printint special case of generate_node, lines 133-146
    let (register, st) ← generate_node expr st
    let (out_register, st) ← allocate_register st
    let name ← identifier.lexeme
    let st := emit ("\tmovq\t" ++ regName register ++ ", %rdi\n") st
    let st := emit ("\tcall\t" ++ name ++ "\n") st
    let st := emit ("\tmovq\t%rax, " ++ regName out_register ++ "\n") st
    let st := free_register register st
    if name = "printint" then
      some (0, free_register out_register st)
    else
      some (out_register, st)
  | .returnStmt expr _fn_name => do
    -- CodeGen::return_stmt, codegen.rs lines 501-507
    let (register, st) ← generate_node expr st
    let st := emit ("\tmovq\t" ++ regName register ++ ", %rax\n") st
    some (0, free_register register st)

/-- The statement loop of the `CompoundStmt` arm of
`CodeGen::generate_node` (codegen.rs lines 121-126). -/
def generate_list (statements : List Node) (st : CGState) : Option CGState :=
  match statements with
  | [] => some st
  | statement :: rest => do
    let (_, st) ← generate_node statement st
    generate_list rest st

end

/-- `CodeGen::preamble` (codegen.rs lines 151-169): the fixed per-unit
prologue with the `printint` intrinsic. -/
def preamble (st : CGState) : CGState :=
  let st := free_all_registers st
  let st := emit "\t.text\n" st
  let st := emit ".LC0:\n" st
  let st := emit ".string\t\"%d\\n\"\n" st
  let st := emit "printint:\n" st
  let st := emit "\tpushq\t%rbp\n" st
  let st := emit "\tmovq\t%rsp, %rbp\n" st
  let st := emit "\tsubq\t$16, %rsp\n" st
  let st := emit "\tmovl\t%edi, -4(%rbp)\n" st
  let st := emit "\tmovl\t-4(%rbp), %eax\n" st
  let st := emit "\tmovl\t%eax, %esi\n" st
  let st := emit "\tleaq\t.LC0(%rip), %rdi\n" st
  let st := emit "\tmovl\t$0, %eax\n" st
  let st := emit "\tcall\tprintf@PLT\n" st
  let st := emit "\tnop\n" st
  let st := emit "\tleave\n" st
  emit "\tret\n\n" st

/-- `CodeGen::generate` (codegen.rs lines 29-37): preamble, then every
top-level node in order. -/
def generate (nodes : List Node) : Option CGState :=
  generate_list nodes (preamble cgInit)

/-! ## Concrete tokens, symbols and nodes used by the claim theorems -/

/-- A `+` operator token at line 1, column 3. -/
def addTok : Token :=
  { tokenType := .add, lexeme := some "+", line := 1, column := 3,
    value := none }

/-- A `-` operator token at line 1, column 3. -/
def subTok : Token :=
  { tokenType := .sub, lexeme := some "-", line := 1, column := 3,
    value := none }

/-- A `==` operator token at line 2, column 5. -/
def eqTok : Token :=
  { tokenType := .equal, lexeme := some "==", line := 2, column := 5,
    value := none }

/-- The identifier token `x`. -/
def xTok : Token :=
  { tokenType := .identifier, lexeme := some "x", line := 3, column := 1,
    value := none }

/-- The identifier token `f`. -/
def fTok : Token :=
  { tokenType := .identifier, lexeme := some "f", line := 1, column := 4,
    value := none }

/-- The identifier token `foo` (a user function that is not `printint`). -/
def fooTok : Token :=
  { tokenType := .identifier, lexeme := some "foo", line := 1, column := 1,
    value := none }

/-- The identifier token of the intrinsic `printint` function built by
`Parser::new` (parser.rs lines 41-47). -/
def printintTok : Token :=
  { tokenType := .identifier, lexeme := some "printint", line := 0,
    column := 0, value := none }

/-- The intrinsic `printint` symbol seeded by `Parser::new` (parser.rs
lines 37-52). -/
def printint_symbol : Symbol :=
  { identifier := printintTok, structKind := .function, ty := some .int,
    end_label := none }

/-- The symbol that `Parser::fn_decl` registers for `fn f()` — carrying
type `Int` even though `f` declares no return type. -/
def f_symbol : Symbol :=
  { identifier := fTok, structKind := .function, ty := some .int,
    end_label := some "f_end" }

/-- `true` when the chunk is one produced by `CodeGen::jump` (codegen.rs
lines 367-369), i.e. starts with the `jmp` mnemonic. -/
def is_jump_chunk (s : String) : Bool :=
  s.data.take 4 = "\tjmp".data

/-- The statement `if (1 == 2) { }` (a legal relational condition), used
to instantiate the register-discipline theorem. -/
def c9_if_node : Node :=
  Node.ifStmt
    (Node.binaryExpr (Node.literalExpr (Literal.u8 1) Ty.u8) eqTok
      (Node.literalExpr (Literal.u8 2) Ty.u8) Ty.u8)
    (Node.compoundStmt []) none

/-- The generator state after emitting `c9_if_node` from the initial
state. -/
def c9_if_state : CGState :=
  ((generate_node c9_if_node cgInit).getD (0, cgInit)).2

/-- The literal `7` of type `U8`, a return expression. -/
def c10_lit : Node := Node.literalExpr (Literal.u8 7) Ty.u8

/-- The generator state after emitting `c10_lit` from the initial
state. -/
def c10_expr_state : CGState :=
  ((generate_node c10_lit cgInit).getD (0, cgInit)).2

/-- A widen wrapper node carries the wrapped operand's original type. -/
theorem ty_unaryExpr (op : Token) (n : Node) (t : Ty) :
    (Node.unaryExpr op n t).ty = some t := rfl

/-- `emit` only appends text; the register pool is untouched. -/
theorem emit_registers (s : String) (st : CGState) :
    (emit s st).registers = st.registers := rfl

/-- After `free_all_registers` every slot reads free. -/
theorem free_all_registers_all (st : CGState) :
    (free_all_registers st).registers.all (fun b => !b) = true := by
  simp [free_all_registers]

/-! ## Claim theorems -/

/-- C1 (counterexample): for `p + 1` with `p : *u32`, `term` does not wrap
the integer operand in a scale node multiplying it by the pointee size 4;
it wraps it in a `Widen` node and leaves the value `1` untouched. -/
theorem C1_counterexample :
    term_combine (Node.literalExpr (Literal.identifier "p") Ty.pU32) addTok
        (Node.literalExpr (Literal.u8 1) Ty.u8)
      = some (Node.binaryExpr
          (Node.literalExpr (Literal.identifier "p") Ty.pU32) addTok
          (Node.unaryExpr (mkWiden 1 3)
            (Node.literalExpr (Literal.u8 1) Ty.u8) Ty.u8)
          Ty.pU32)
    ∧ (mkWiden 1 3).tokenType = TokenType.widen
    ∧ Ty.pU32.value_at = some Ty.u32 ∧ Ty.u32.size = 4 :=
  ⟨rfl, rfl, rfl, rfl⟩

/-- C1 (amended): for a binary `+` with a pointer operand on the left and
an integer operand narrower than 8 bytes on the right, the integer
operand is wrapped in a widen node — never a scale node, and the pointee
size is never consulted; under `-` the same pairing fails the
compatibility check outright. -/
theorem C1_pointer_arith_widens_not_scales
    (l r : Node) (op : Token) (pt it : Ty)
    (hl : l.ty = some pt) (hr : r.ty = some it)
    (hp : pt.is_pointer = true) (hi : it.is_integer = true)
    (hs : it.size < 8) :
    (op.tokenType = .add →
      term_combine l op r
        = some (Node.binaryExpr l op
            (Node.unaryExpr (mkWiden op.line op.column) r it) pt))
    ∧ (op.tokenType = .sub → term_combine l op r = none) := by
  refine ⟨fun hop => ?_, fun hop => ?_⟩ <;>
    cases pt <;> cases it <;>
      first
      | exact absurd hp (by decide)
      | exact absurd hi (by decide)
      | exact absurd hs (by decide)
      | (unfold term_combine; rw [hl, hr, hop];
         simp [type_compatible, Ty.size, hl])

/-- C1 (witness): instantiating the amended theorem at `p + 1` with
`p : *u32`. -/
theorem C1_pointer_arith_widens_not_scales_witness :
    term_combine (Node.literalExpr (Literal.identifier "p") Ty.pU32) subTok
        (Node.literalExpr (Literal.u8 1) Ty.u8) = none :=
  (C1_pointer_arith_widens_not_scales
    (Node.literalExpr (Literal.identifier "p") Ty.pU32)
    (Node.literalExpr (Literal.u8 1) Ty.u8) subTok Ty.pU32 Ty.u8
    rfl rfl rfl rfl (by decide)).2 rfl

/-- C2 (counterexample): the literal `300` (in the claimed 16-bit range
256-65535) is typed `Int` — the 8-byte integer type — not a 16-bit type
(no 16-bit type exists in the compiler). -/
theorem C2_counterexample :
    primary_integer 300 = Node.literalExpr (Literal.integer 300) Ty.int
    ∧ Ty.int.size = 8 :=
  ⟨rfl, rfl⟩

/-- C2 (amended): integer literals are typed by a two-way split only:
values up to 255 become `U8` literals of the 8-bit type, every larger
value stays an `Integer` literal of the 64-bit `Int` type. -/
theorem C2_literal_two_bucket (val : Nat) :
    (val ≤ 255 ∧ primary_integer val = Node.literalExpr (Literal.u8 val) Ty.u8
      ∧ Ty.u8.size = 1)
    ∨ (255 < val
      ∧ primary_integer val = Node.literalExpr (Literal.integer val) Ty.int
      ∧ Ty.int.size = 8) := by
  by_cases h : val ≤ 255
  · exact Or.inl ⟨h, by simp [primary_integer, h], rfl⟩
  · exact Or.inr ⟨by omega, by simp [primary_integer, h], rfl⟩

/-- C3 (counterexample): for two integer operands of differing widths the
compatibility check does not always succeed — `Int - U8` (wider left,
`right_only = true`) fails — and for `U8 + Int` the resulting binary
node is annotated with the narrow left type `U8`, not the wider `Int`. -/
theorem C3_counterexample :
    term_combine (Node.literalExpr (Literal.integer 300) Ty.int) subTok
        (Node.literalExpr (Literal.u8 5) Ty.u8) = none
    ∧ (term_combine (Node.literalExpr (Literal.u8 5) Ty.u8) addTok
        (Node.literalExpr (Literal.integer 300) Ty.int)).bind Node.ty
      = some Ty.u8
    ∧ Ty.u8 ≠ Ty.int :=
  ⟨rfl, rfl, by decide⟩

/-- C3 (amended): for integer operands of differing widths, the pair is
accepted — with the narrower operand wrapped in a widen node — whenever
the operator is `+` or the left operand is the narrower; under `-`
(`right_only = true`) a wider left operand is rejected.  The binary
node's annotated type is always the left operand's original type. -/
theorem C3_integer_widening
    (l r : Node) (op : Token) (lt rt : Ty)
    (hl : l.ty = some lt) (hr : r.ty = some rt)
    (hlt : lt.is_integer = true) (hrt : rt.is_integer = true)
    (hne : lt.size ≠ rt.size) :
    (op.tokenType = .add ∨ lt.size < rt.size →
      term_combine l op r
        = some (Node.binaryExpr
            (if lt.size < rt.size then
              Node.unaryExpr (mkWiden op.line op.column) l lt
            else l)
            op
            (if rt.size < lt.size then
              Node.unaryExpr (mkWiden op.line op.column) r rt
            else r)
            lt))
    ∧ (op.tokenType = .sub → rt.size < lt.size →
      term_combine l op r = none) := by
  constructor
  · intro hop
    rcases hop with hop | hop
    · cases lt <;> cases rt <;>
        first
        | exact absurd hlt (by decide)
        | exact absurd hrt (by decide)
        | exact absurd hne (by decide)
        | (unfold term_combine; rw [hl, hr, hop];
           simp [type_compatible, Ty.size, ty_unaryExpr, hl, hr])
    · cases lt <;> cases rt <;>
        first
        | exact absurd hlt (by decide)
        | exact absurd hrt (by decide)
        | exact absurd hne (by decide)
        | exact absurd hop (by decide)
        | (unfold term_combine; rw [hl, hr];
           simp [type_compatible, Ty.size, ty_unaryExpr, hl, hr])
  · intro hop hgt
    cases lt <;> cases rt <;>
      first
      | exact absurd hlt (by decide)
      | exact absurd hrt (by decide)
      | exact absurd hne (by decide)
      | exact absurd hgt (by decide)
      | (unfold term_combine; rw [hl, hr, hop];
         simp [type_compatible, Ty.size])

/-- C3 (witness): instantiating the amended theorem at `U8 + Int`. -/
theorem C3_integer_widening_witness :
    term_combine (Node.literalExpr (Literal.u8 5) Ty.u8) addTok
        (Node.literalExpr (Literal.integer 300) Ty.int)
      = some (Node.binaryExpr
          (if Ty.u8.size < Ty.int.size then
            Node.unaryExpr (mkWiden addTok.line addTok.column)
              (Node.literalExpr (Literal.u8 5) Ty.u8) Ty.u8
          else Node.literalExpr (Literal.u8 5) Ty.u8)
          addTok
          (if Ty.int.size < Ty.u8.size then
            Node.unaryExpr (mkWiden addTok.line addTok.column)
              (Node.literalExpr (Literal.integer 300) Ty.int) Ty.int
          else Node.literalExpr (Literal.integer 300) Ty.int)
          Ty.u8) :=
  (C3_integer_widening (Node.literalExpr (Literal.u8 5) Ty.u8)
    (Node.literalExpr (Literal.integer 300) Ty.int) addTok Ty.u8 Ty.int
    rfl rfl rfl rfl (by decide)).1 (Or.inl rfl)

/-- C6 (counterexample): a 64-bit integer paired with a pointer type is
silently accepted by the compatibility check (no widening, no error),
contradicting the claim that such pairings fail. -/
theorem C6_counterexample :
    type_compatible Ty.int Ty.pU8 false = some (false, false)
    ∧ Ty.int.is_integer = true ∧ Ty.pU8.is_pointer = true := by
  decide

/-- C6 (amended): the compatibility check fails exactly when the left
type is strictly wider than the right and `right_only` is set; every
other pairing — including a 64-bit integer with a pointer — is accepted. -/
theorem C6_failure_characterization (l r : Ty) (ro : Bool) :
    type_compatible l r ro = none ↔ (r.size < l.size ∧ ro = true) := by
  cases l <;> cases r <;> cases ro <;> decide

/-- C7: assignment width discipline — an expression wider than the
destination is rejected before the `AssignStmt` node is built; a narrower
expression is accepted with a widen wrapper; an equal-width expression is
accepted unchanged. -/
theorem C7_assignment_width_check
    (identifier : Token) (expr : Node) (et dty : Ty) (pl pc : Nat)
    (he : expr.ty = some et) :
    (dty.size < et.size →
      assignment_build identifier dty expr pl pc = none)
    ∧ (et.size < dty.size →
      assignment_build identifier dty expr pl pc
        = some (Node.assignStmt identifier
            (Node.unaryExpr (mkWiden pl pc) expr et)))
    ∧ (et.size = dty.size →
      assignment_build identifier dty expr pl pc
        = some (Node.assignStmt identifier expr)) := by
  refine ⟨fun hw => ?_, fun hn => ?_, fun heq => ?_⟩ <;>
    cases et <;> cases dty <;>
      first
      | exact absurd hw (by decide)
      | exact absurd hn (by decide)
      | exact absurd heq (by decide)
      | (unfold assignment_build; rw [he];
         simp [type_compatible, Ty.size])

/-- C7 (witness): assigning the `Int`-typed literal `300` into a `u8`
destination fails. -/
theorem C7_assignment_width_check_witness :
    assignment_build xTok Ty.u8 (primary_integer 300) 3 5 = none :=
  (C7_assignment_width_check xTok (primary_integer 300) Ty.int Ty.u8 3 5
    rfl).1 (by decide)

/-- C8 (counterexample): a statement whose first token is `*` (as in
`*p = v;`) matches no branch of `single_statement` and panics, while the
`assignment` production is reachable only from an identifier head
token. -/
theorem C8_counterexample :
    single_statement_branch TokenType.mul = none
    ∧ single_statement_branch TokenType.identifier
      = some StmtBranch.assignment := by
  decide

/-- C4: evaluating `return_statement` at the program `fn f() { return 1; }`
— a `return` inside a function that declares no return type.  The first
conjunct shows the true half of the claim: `return` outside any function
does fail.  The remaining conjuncts show the bug: `fn_decl` registers
every function symbol with type `Int` (never `None`), so the
no-return-type check in `return_statement` can never fire, the `return`
is accepted, and the coercion targets `Int` instead of the declared
return type — a `return 300` in a function declared `: u8` is accepted
as well. -/
theorem C4_return_type_check_vacuous :
    return_statement_build none (primary_integer 1) 2 10 = none
    ∧ fn_decl_register [printint_symbol] fTok
      = some (f_symbol, [printint_symbol, f_symbol])
    ∧ f_symbol.ty = some Ty.int
    ∧ return_statement_build (some f_symbol) (primary_integer 1) 2 10
      = some (Node.returnStmt
          (Node.unaryExpr (mkWiden 2 10) (primary_integer 1) Ty.u8) f_symbol)
    ∧ return_statement_build (some f_symbol) (primary_integer 300) 2 10
      = some (Node.returnStmt (primary_integer 300) f_symbol) :=
  ⟨rfl, rfl, rfl, rfl, rfl⟩

/-- C5 (counterexample): a `for` loop with omitted condition desugars to
a `WhileStmt` whose condition is the literal `1` — not a relational
`BinaryExpr` — and that node reaches the code generator, which panics on
it. -/
theorem C5_counterexample :
    for_statement_build none for_default_condition none (Node.compoundStmt [])
      = Node.whileStmt for_default_condition (Node.compoundStmt [])
    ∧ condition_check for_default_condition = false
    ∧ generate_node
        (Node.whileStmt for_default_condition (Node.compoundStmt []))
        cgInit = none :=
  ⟨rfl, rfl, rfl⟩

/-- C5 (amended): `if` and `while` statements enforce at parse time that
the condition is a `BinaryExpr` with a relational/equality operator (a
bare identifier such as `if (x)` is rejected), but `WhileStmt` nodes
desugared from `for` are exempt: an omitted `for` condition becomes the
literal `1`, and no shape check is applied to a present `for`
condition. -/
theorem C5_condition_shape :
    (∀ e tb eb, (if_statement_build e tb eb).isSome = condition_check e)
    ∧ (∀ e b, (while_statement_build e b).isSome = condition_check e)
    ∧ condition_check (Node.literalExpr (Literal.identifier "x") Ty.u8) = false
    ∧ (∀ b, for_statement_build none for_default_condition none b
        = Node.whileStmt for_default_condition b)
    ∧ condition_check for_default_condition = false := by
  refine ⟨fun e tb eb => ?_, fun e b => ?_, rfl, fun b => rfl, rfl⟩ <;>
    by_cases hc : condition_check e <;>
      simp [if_statement_build, while_statement_build, hc]

/-- C8 (amended): `assignment` is reached exactly from an identifier head
token, so every `AssignStmt` target is a bare identifier token (the
`AssignStmt` node stores a `Token`, not a target expression) and
`*p = v;` is not parseable. -/
theorem C8_assignment_target (t : TokenType) :
    (single_statement_branch t = some StmtBranch.assignment ↔
      t = TokenType.identifier)
    ∧ single_statement_branch TokenType.mul = none := by
  cases t <;> decide

/-- Every successful emission of an `IfStmt` leaves the whole register
pool free: `if_stmt` ends with `free_all_registers` (after the then- or
else-branch) followed only by label/jump text emissions. -/
theorem if_stmt_frees_all (condition tb : Node) (eb : Option Node)
    (st : CGState) (r : Nat) (st' : CGState)
    (h : generate_node (Node.ifStmt condition tb eb) st = some (r, st')) :
    st'.registers.all (fun b => !b) = true := by
  cases eb with
  | none =>
    simp only [generate_node] at h
    repeat' split at h
    all_goals try exact Option.noConfusion h
    all_goals simp at h
    all_goals
      simp only [Option.bind_eq_some] at h
      obtain ⟨⟨lr, st1⟩, h1, h⟩ := h
      obtain ⟨⟨rr, st2⟩, h2, h⟩ := h
      obtain ⟨st3, h3, h⟩ := h
      obtain ⟨⟨t4, st4⟩, h4, h⟩ := h
      simp only [Option.some_inj, Prod.mk.injEq] at h
      obtain ⟨rfl, rfl⟩ := h
      simp [generate_label, jump, emit, free_all_registers]
  | some e =>
    simp only [generate_node] at h
    repeat' split at h
    all_goals try exact Option.noConfusion h
    all_goals simp at h
    all_goals
      simp only [Option.bind_eq_some] at h
      obtain ⟨⟨lr, st1⟩, h1, h⟩ := h
      obtain ⟨⟨rr, st2⟩, h2, h⟩ := h
      obtain ⟨st3, h3, h⟩ := h
      obtain ⟨⟨t4, st4⟩, h4, h⟩ := h
      obtain ⟨⟨t6, st6⟩, h6, h⟩ := h
      simp only [Option.some_inj, Prod.mk.injEq] at h
      obtain ⟨rfl, rfl⟩ := h
      simp [generate_label, jump, emit, free_all_registers]

/-- Every successful emission of a `WhileStmt` leaves the whole register
pool free, for the same reason as `if_stmt_frees_all`. -/
theorem while_stmt_frees_all (condition body : Node) (st : CGState)
    (r : Nat) (st' : CGState)
    (h : generate_node (Node.whileStmt condition body) st = some (r, st')) :
    st'.registers.all (fun b => !b) = true := by
  simp only [generate_node] at h
  repeat' split at h
  all_goals try exact Option.noConfusion h
  all_goals simp at h
  all_goals
    simp only [Option.bind_eq_some] at h
    obtain ⟨⟨lr, st1⟩, h1, h⟩ := h
    obtain ⟨⟨rr, st2⟩, h2, h⟩ := h
    obtain ⟨st3, h3, h⟩ := h
    obtain ⟨⟨t4, st4⟩, h4, h⟩ := h
    simp only [Option.some_inj, Prod.mk.injEq] at h
    obtain ⟨rfl, rfl⟩ := h
    simp [generate_label, jump, emit, free_all_registers]

/-- C9 (counterexample): after the single statement of a compound
statement — a standalone call to a user function — is emitted, register 1
(the call's result register) is still allocated, so not all four scratch
registers are free at that statement boundary. -/
theorem C9_counterexample :
    (generate_node (Node.compoundStmt
        [Node.fnCall fooTok (Node.literalExpr (Literal.u8 1) Ty.u8) Ty.int])
        cgInit).map (fun p => p.2.registers)
      = some [false, true, false, false]
    ∧ ([false, true, false, false] : List Bool)
        ≠ [false, false, false, false] :=
  ⟨rfl, by decide⟩

/-- C9 (amended): the four scratch registers are all free after every
`if`/`while` statement (the control-flow joins call
`free_all_registers`), but not at every statement boundary: the
statement loop of `CompoundStmt` never frees, and a standalone call
statement to a user function leaves its result register allocated into
the next statement. -/
theorem C9_register_discipline :
    (∀ condition tb eb st r st',
      generate_node (Node.ifStmt condition tb eb) st = some (r, st') →
      st'.registers.all (fun b => !b) = true)
    ∧ (∀ condition body st r st',
      generate_node (Node.whileStmt condition body) st = some (r, st') →
      st'.registers.all (fun b => !b) = true)
    ∧ (generate_node (Node.compoundStmt
        [Node.fnCall fooTok (Node.literalExpr (Literal.u8 1) Ty.u8) Ty.int])
        cgInit).map (fun p => p.2.registers)
      = some [false, true, false, false] :=
  ⟨fun condition tb eb st r st' h =>
      if_stmt_frees_all condition tb eb st r st' h,
    fun condition body st r st' h =>
      while_stmt_frees_all condition body st r st' h,
    rfl⟩

/-- C9 (witness): instantiating the register-discipline theorem on the
concrete statement `if (1 == 2) { }` emitted from the initial state. -/
theorem C9_register_discipline_witness :
    c9_if_state.registers.all (fun b => !b) = true :=
  C9_register_discipline.1
    (Node.binaryExpr (Node.literalExpr (Literal.u8 1) Ty.u8) eqTok
      (Node.literalExpr (Literal.u8 2) Ty.u8) Ty.u8)
    (Node.compoundStmt []) none cgInit 0 c9_if_state rfl

/-- C10: the emission of a `ReturnStmt` is the emission of its expression
followed by exactly one extra chunk — the `movq` of the result register
into `%rax` — with the result register freed; that chunk is not a jump
(so no jump to the function's end label is emitted), and any statement
following the return in a compound statement is still emitted, starting
from the return's final state. -/
theorem C10_return_emits_no_jump
    (expr : Node) (fn_sym : Symbol) (st : CGState) (r : Nat)
    (st1 : CGState) (h : generate_node expr st = some (r, st1)) :
    generate_node (Node.returnStmt expr fn_sym) st
      = some (0, free_register r
          (emit ("\tmovq\t" ++ regName r ++ ", %rax\n") st1))
    ∧ is_jump_chunk ("\tmovq\t" ++ regName r ++ ", %rax\n") = false
    ∧ (∀ s2 r2 st2,
        generate_node s2 (free_register r
          (emit ("\tmovq\t" ++ regName r ++ ", %rax\n") st1))
          = some (r2, st2) →
        generate_list [Node.returnStmt expr fn_sym, s2] st = some st2) := by
  have hret : generate_node (Node.returnStmt expr fn_sym) st
      = some (0, free_register r
          (emit ("\tmovq\t" ++ regName r ++ ", %rax\n") st1)) := by
    simp [generate_node, h]
  refine ⟨hret, ?_, ?_⟩
  · rcases r with _ | _ | _ | _ | n <;>
      simp [is_jump_chunk, regName, REGISTER_NAMES]
  · intro s2 r2 st2 h2
    simp [generate_list, hret, h2]

/-- C10 (witness): instantiating the return-emission theorem at
`return 7;` inside `f`, emitted from the initial state. -/
theorem C10_return_emits_no_jump_witness :
    generate_node (Node.returnStmt c10_lit f_symbol) cgInit
      = some (0, free_register 0
          (emit ("\tmovq\t" ++ regName 0 ++ ", %rax\n") c10_expr_state)) :=
  (C10_return_emits_no_jump c10_lit f_symbol cgInit 0 c10_expr_state rfl).1

end ZC
